import Mathlib

/-!
Verification of the spoonacular_api grocery-list client
(src/spoonacular_api/spoonacular_api.py) against its specification.

The client is a thin wrapper over a remote HTTP API: every method
builds a request, reads a JSON response, and reshapes it into a table.
We embed it shallowly: remote responses are explicit inputs (typed
records mirroring the JSON shapes the code reads), each method is a
pure function from the session, its arguments and the relevant remote
responses to the list of HTTP requests it issues together with its
resulting table, and Python exceptions become an `Except` error value.
JSON numbers (Python ints and floats) are modelled as exact rationals.
-/

namespace SpoonacularApi

/-- Python's `round` rounds half to even (banker's rounding).
`qfloor` is the floor of a rational, computed by floor division. -/
def qfloor (q : ℚ) : ℤ := Int.fdiv q.num q.den

/-- Round a rational to the nearest integer, ties to even, mirroring
Python's built-in `round(x)` on exact values. With `f` the floor of
`q`, the fractional part `q - f` compares to 1/2 exactly as
`2 * (num - f * den)` compares to `den`. -/
def roundHalfEven (q : ℚ) : ℤ :=
  let n := q.num
  let d : ℤ := (q.den : ℤ)
  let f := Int.fdiv n d
  let r2 := 2 * (n - f * d)
  if r2 < d then f
  else if d < r2 then f + 1
  else if f % 2 = 0 then f else f + 1

/-- Python's `round(x, 2)`: round to 2 decimal places, ties to even. -/
def round2 (q : ℚ) : ℚ := ((roundHalfEven (q * 100) : ℤ) : ℚ) / 100

/-- Truncation toward zero, as Python's `int()` / pandas `astype(int)`
perform on a numeric value. -/
def ratTrunc (x : ℚ) : ℤ :=
  if 0 ≤ x.num then Int.fdiv x.num x.den else -(Int.fdiv (-x.num) x.den)

/-- A Python value, as far as the client's runtime type checks look at
one: an int, a bool (a subclass of int in Python), a string or a float. -/
inductive PyVal where
  | pint (n : ℤ)
  | pbool (b : Bool)
  | pstr (s : String)
  | pfloat (q : ℚ)
  deriving DecidableEq

/-- Python's `isinstance(v, int)`. `True` and `False` pass the check
because `bool` is a subclass of `int`. -/
def PyVal.isInt : PyVal → Bool
  | .pint _ => true
  | .pbool _ => true
  | _ => false

/-- Python's `str(v)` as used when a value is interpolated into an
endpoint URL. Booleans print as `True` / `False`. (Floats never reach
URL interpolation in the client: they are rejected by validation first;
their branch is a placeholder rendering of the rational.) -/
def PyVal.pyStr : PyVal → String
  | .pint n => toString n
  | .pbool true => "True"
  | .pbool false => "False"
  | .pstr s => s
  | .pfloat q => toString q

/-- Python's `repr` of a simple string (one with no quote or escape
characters in it, which is all the client ever interpolates). -/
def pyStrRepr (s : String) : String := "'" ++ s ++ "'"

/-- Python's `str` of a tuple of strings, as produced when an f-string
interpolates a `*args` tuple: `('chicken', 'carrot')`, with the
trailing comma for a 1-tuple and `()` for the empty tuple. -/
def pyTupleRepr : List String → String
  | [] => "()"
  | [x] => "(" ++ pyStrRepr x ++ ",)"
  | x :: y :: rest =>
    "(" ++ String.intercalate ", " (List.map pyStrRepr (x :: y :: rest)) ++ ")"

/-- The session state a `GroceryList` object carries after
construction: the three attributes `__init__` assigns to `self`. -/
structure Session where
  username : String
  hash : String
  API_Key : String
  deriving DecidableEq

/-- The errors the client raises. The source raises bare `Exception`s;
the spec's taxonomy names them, and each carries the source's message. -/
inductive Err where
  | authenticationError (msg : String)
  | validationError (msg : String)
  deriving DecidableEq

/-- Response of the POST users/connect handshake: HTTP status plus the
JSON fields `__init__` reads on success. -/
structure ConnectResp where
  status : ℕ
  username : String
  hash : String
  deriving DecidableEq

/-- One recipe object of a complexSearch response, with the fields
`searchRecipe` reads. `pricePerServing` is in cents. -/
structure RecipeResult where
  title : String
  servings : ℤ
  pricePerServing : ℚ
  id : ℤ
  deriving DecidableEq

/-- A complexSearch response: its `results` array. -/
structure SearchResp where
  results : List RecipeResult
  deriving DecidableEq

/-- One branch (`metric` or `us`) of an ingredient's `amount` record. -/
structure MeasureBranch where
  value : ℚ
  unit : String
  deriving DecidableEq

/-- The `amount` record of an ingredientWidget ingredient. -/
structure IngAmount where
  metric : MeasureBranch
  us : MeasureBranch
  deriving DecidableEq

/-- One ingredient of an ingredientWidget response. -/
structure Ingredient where
  name : String
  amount : IngAmount
  deriving DecidableEq

/-- An ingredientWidget.json response: its `ingredients` array. -/
structure WidgetResp where
  ingredients : List Ingredient
  deriving DecidableEq

/-- One branch of a shopping-list item's `measures` record. -/
structure SLMeasureBranch where
  amount : ℚ
  unit : String
  deriving DecidableEq

/-- The `measures` record of a shopping-list item. -/
structure SLMeasures where
  metric : SLMeasureBranch
  us : SLMeasureBranch
  deriving DecidableEq

/-- One item of a shopping-list response. `cost` is in cents; `id` is a
JSON number (an integer in practice, modelled as a rational before the
client's own `astype(int)` coercion). -/
structure SLItem where
  name : String
  measures : SLMeasures
  cost : ℚ
  id : ℚ
  deriving DecidableEq

/-- One aisle of a shopping-list response: its `items` array. -/
structure Aisle where
  items : List SLItem
  deriving DecidableEq

/-- A GET shopping-list response: `aisles`, plus the overall `cost`
in cents. -/
structure SLResponse where
  aisles : List Aisle
  cost : ℚ
  deriving DecidableEq

/-- The body of a POST shopping-list add-item call. The source
serialises `value`, `unit` and `name` into the free-text
`item` field and always sends `parse` as `True`; we keep the
components structured. -/
structure AddItemBody where
  value : ℚ
  unit : String
  name : String
  parse : Bool
  deriving DecidableEq

/-- An HTTP request issued by the client. -/
inductive Request where
  | get (url : String)
  | post (url : String) (body : AddItemBody)
  | delete (url : String)
  deriving DecidableEq

/-- Whether a request is a POST. -/
def Request.isPost : Request → Bool
  | .post _ _ => true
  | _ => false

/-- The users/connect endpoint URL built in `__init__`. -/
def connectEndpoint (API_Key : String) : String :=
  "https://api.spoonacular.com/users/connect?apiKey=" ++ API_Key

/-- The complexSearch endpoint URL built in `searchRecipe`. The
f-string interpolates the whole `includeIngreds` tuple, so the
`includeIngredients` parameter carries the tuple's `str` form. -/
def searchEndpoint (API_Key query : String) (includeIngreds : List String) : String :=
  "https://api.spoonacular.com/recipes/complexSearch?apiKey=" ++ API_Key
    ++ "&query=" ++ query
    ++ "&includeIngredients=" ++ pyTupleRepr includeIngreds
    ++ "&addRecipeInformation=true&sort=popularity&number=5"

/-- The ingredientWidget.json endpoint URL built in `getIngredients`
and `addAllIngredients`. -/
def widgetEndpoint (API_Key : String) (recipeID : ℤ) : String :=
  "https://api.spoonacular.com/recipes/" ++ toString recipeID
    ++ "/ingredientWidget.json?apiKey=" ++ API_Key

/-- The shopping-list add-item endpoint URL built in `addIngredient`
and `addAllIngredients`. -/
def addItemEndpoint (s : Session) : String :=
  "https://api.spoonacular.com/mealplanner/" ++ s.username
    ++ "/shopping-list/items?apiKey=" ++ s.API_Key ++ "&hash=" ++ s.hash

/-- The GET shopping-list endpoint URL built in `getShoppingList`. -/
def shoppingListEndpoint (s : Session) : String :=
  "https://api.spoonacular.com/mealplanner/" ++ s.username
    ++ "/shopping-list?apiKey=" ++ s.API_Key ++ "&hash=" ++ s.hash

/-- The DELETE shopping-list item endpoint URL built in `deleteItem`
for one item identifier. -/
def deleteItemEndpoint (s : Session) (itemID : PyVal) : String :=
  "https://api.spoonacular.com/mealplanner/" ++ s.username
    ++ "/shopping-list/items/" ++ itemID.pyStr
    ++ "?apiKey=" ++ s.API_Key ++ "&hash=" ++ s.hash

/-- `GroceryList.__init__`: POST the connect handshake; raise on HTTP
401; otherwise store the returned username and hash together with the
caller's API key. The leading string-type asserts hold by typing. -/
def groceryListInit (username firstName lastName email API_Key : String)
    (resp : ConnectResp) : Except Err Session :=
  if resp.status = 401 then
    .error (.authenticationError "Not authorized, please check API Key")
  else
    .ok { username := resp.username, hash := resp.hash, API_Key := API_Key }

/-- One row of the `searchRecipe` dataframe:
Recipe, Servings, Price Per Serving, Recipe ID. -/
structure RecipeRow where
  recipe : String
  servings : ℤ
  pricePerServing : ℚ
  recipeID : ℤ
  deriving DecidableEq

/-- The dataframe `searchRecipe` builds from a complexSearch response:
one row per result, in response order, with the price-per-serving cents
divided by 100 and rounded to 2 decimal places. -/
def searchRecipeRows (resp : SearchResp) : List RecipeRow :=
  resp.results.map fun r =>
    { recipe := r.title, servings := r.servings,
      pricePerServing := round2 (r.pricePerServing / 100), recipeID := r.id }

/-- `GroceryList.searchRecipe`: the GET request it issues, the
dataframe it returns and the session state it leaves behind. The
query/ingredient type checks hold by typing here. -/
def searchRecipeM (s : Session) (query : String) (includeIngreds : List String)
    (resp : SearchResp) : (List Request × List RecipeRow) × Session :=
  (([Request.get (searchEndpoint s.API_Key query includeIngreds)],
    searchRecipeRows resp), s)

/-- One row of the `getIngredients` dataframe:
Ingredient, Amount, Unit. -/
structure IngRow where
  ingredient : String
  amount : ℚ
  unit : String
  deriving DecidableEq

/-- The dataframe `getIngredients` builds from an ingredientWidget
response: one row per ingredient, in response order, with value and
unit taken from the metric branch of the ingredient's amount record. -/
def getIngredientsRows (resp : WidgetResp) : List IngRow :=
  resp.ingredients.map fun i =>
    { ingredient := i.name, amount := i.amount.metric.value,
      unit := i.amount.metric.unit }

/-- `GroceryList.getIngredients`: the GET request it issues, the
dataframe it returns and the session state it leaves behind. -/
def getIngredientsM (s : Session) (recipeID : ℤ) (resp : WidgetResp) :
    (List Request × List IngRow) × Session :=
  (([Request.get (widgetEndpoint s.API_Key recipeID)],
    getIngredientsRows resp), s)

/-- One cell of the shopping-list dataframe. Pandas cells here hold a
string, a number (an int after `astype(int)`, otherwise a float), or
NaN (`blank`) before `fillna` replaces it with the empty string. -/
inductive Cell where
  | i (n : ℤ)
  | q (x : ℚ)
  | s (t : String)
  | blank
  deriving DecidableEq

/-- One row of the shopping-list dataframe:
Item, Amount, Unit, Cost (USD), Item ID. -/
structure SRow where
  item : Cell
  amount : Cell
  unit : Cell
  cost : Cell
  itemID : Cell
  deriving DecidableEq

/-- The items of a shopping-list response flattened across aisles, in
aisle order then item order — the iteration order of the two nested
loops in `getShoppingList`. -/
def slItems (resp : SLResponse) : List SLItem :=
  (resp.aisles.map Aisle.items).flatten

/-- The row appended for one shopping-list item: name, metric amount
and unit, cost in cents divided by 100 and rounded to 2 places, and
the raw item id. -/
def itemRow0 (it : SLItem) : SRow :=
  { item := Cell.s it.name, amount := Cell.q it.measures.metric.amount,
    unit := Cell.s it.measures.metric.unit,
    cost := Cell.q (round2 (it.cost / 100)), itemID := Cell.q it.id }

/-- The synthetic trailing row right after
`shopping_df.loc[len(shopping_df.index), 'Item'] = "Total cost"`:
only the Item column is set, the rest are NaN. -/
def totalRow0 : SRow :=
  { item := Cell.s "Total cost", amount := Cell.blank, unit := Cell.blank,
    cost := Cell.blank, itemID := Cell.blank }

/-- The masked assignment
`shopping_df.loc[shopping_df['Item'] == 'Total cost', 'Cost (USD)'] = total`:
it overwrites the cost of EVERY row whose Item equals "Total cost". -/
def setTotal (total : ℚ) (r : SRow) : SRow :=
  if r.item = Cell.s "Total cost" then { r with cost := Cell.q total } else r

/-- `fillna('')` on one cell: NaN becomes the empty string. -/
def fillCell : Cell → Cell
  | Cell.blank => Cell.s ""
  | c => c

/-- `fillna('')` on one row. -/
def fillRow (r : SRow) : SRow :=
  { item := fillCell r.item, amount := fillCell r.amount,
    unit := fillCell r.unit, cost := fillCell r.cost,
    itemID := fillCell r.itemID }

/-- `astype(int)` on one cell: a numeric value is truncated to an
integer; other cells are unreachable in the source's slice. -/
def toIntCell : Cell → Cell
  | Cell.q x => Cell.i (ratTrunc x)
  | c => c

/-- `astype(int)` applied to the Item ID column of one row. -/
def intRow (r : SRow) : SRow := { r with itemID := toIntCell r.itemID }

/-- Apply `f` to every row except the last one, mirroring the
`iloc[0:-1, ...]` slice. -/
def mapButLast (f : SRow → SRow) : List SRow → List SRow
  | [] => []
  | [x] => [x]
  | x :: y :: rest => f x :: mapButLast f (y :: rest)

/-- The dataframe `getShoppingList` builds from a shopping-list
response, following the source line by line: flatten aisles to item
rows, append the synthetic Total-cost row, write the aggregate cost
into every row labelled "Total cost", replace NaN with the empty
string, then coerce the Item ID column to int on all rows but
the last. -/
def getShoppingListRows (resp : SLResponse) : List SRow :=
  mapButLast intRow
    ((((slItems resp).map itemRow0 ++ [totalRow0]).map
        (setTotal (round2 (resp.cost / 100)))).map fillRow)

/-- `GroceryList.getShoppingList`: the GET request it issues, the
dataframe it returns and the session state it leaves behind. -/
def getShoppingListM (s : Session) (resp : SLResponse) :
    (List Request × List SRow) × Session :=
  (([Request.get (shoppingListEndpoint s)], getShoppingListRows resp), s)

/-- `GroceryList.addIngredient`: one POST of the parsed free-text item,
then the refresh via `getShoppingList`. -/
def addIngredientM (s : Session) (ingred : String) (amount : ℚ) (unit : String)
    (slResp : SLResponse) : (List Request × List SRow) × Session :=
  (([Request.post (addItemEndpoint s)
      { value := amount, unit := unit, name := ingred, parse := true },
     Request.get (shoppingListEndpoint s)],
    getShoppingListRows slResp), s)

/-- `GroceryList.addAllIngredients`: GET the ingredient widget, POST
one add-item call per ingredient in widget order (each response bound
to nothing and never inspected — `addStatus` gives the HTTP status of
the k-th POST and is unused, exactly as the source discards
`requests.post`'s return), then refresh via `getShoppingList`. -/
def addAllIngredientsM (s : Session) (recipeID : ℤ) (w : WidgetResp)
    (addStatus : ℕ → ℕ) (slResp : SLResponse) :
    (List Request × List SRow) × Session :=
  (([Request.get (widgetEndpoint s.API_Key recipeID)]
      ++ w.ingredients.map (fun ing =>
           Request.post (addItemEndpoint s)
             { value := ing.amount.metric.value, unit := ing.amount.metric.unit,
               name := ing.name, parse := true })
      ++ [Request.get (shoppingListEndpoint s)],
    getShoppingListRows slResp), s)

/-- `GroceryList.deleteItem`: validate that every argument is an int
(in Python's sense, so bools pass) BEFORE any network call; on failure
raise with no request issued; on success DELETE each id in argument
order, then refresh via `getShoppingList`. -/
def deleteItemM (s : Session) (item_IDs : List PyVal) (slResp : SLResponse) :
    (List Request × Except Err (List SRow)) × Session :=
  ((if item_IDs.all PyVal.isInt then
      (item_IDs.map (fun v => Request.delete (deleteItemEndpoint s v))
         ++ [Request.get (shoppingListEndpoint s)],
       .ok (getShoppingListRows slResp))
    else
      ([], .error (.validationError "Item IDs must all be integers"))), s)

/-! Helper lemmas: evaluating the rounding functions, and the
shopping-list pipeline in closed form. -/

theorem roundHalfEven_intCast (n : ℤ) : roundHalfEven (n : ℚ) = n := by
  unfold roundHalfEven
  simp [Rat.num_intCast, Rat.den_intCast, Int.fdiv_one]

theorem round2_intCast_div_100 (n : ℤ) :
    round2 ((n : ℚ) / 100) = (n : ℚ) / 100 := by
  unfold round2
  rw [div_mul_cancel₀ _ (by norm_num : (100 : ℚ) ≠ 0), roundHalfEven_intCast]

theorem mapButLast_append (f : SRow → SRow) (xs : List SRow) (t : SRow) :
    mapButLast f (xs ++ [t]) = xs.map f ++ [t] := by
  induction xs with
  | nil => rfl
  | cons x xs ih =>
    cases xs with
    | nil => rfl
    | cons y ys => simpa [mapButLast] using ih

/-- The shopping-list pipeline, closed form: one transformed row per
flattened item, followed by the finished Total-cost row. -/
theorem getShoppingListRows_eq (resp : SLResponse) :
    getShoppingListRows resp =
      (slItems resp).map (fun it =>
        intRow (fillRow (setTotal (round2 (resp.cost / 100)) (itemRow0 it))))
      ++ [{ item := Cell.s "Total cost", amount := Cell.s "",
            unit := Cell.s "", cost := Cell.q (round2 (resp.cost / 100)),
            itemID := Cell.s "" }] := by
  unfold getShoppingListRows
  rw [List.map_append, List.map_append]
  simp only [List.map_cons, List.map_nil]
  rw [mapButLast_append]
  simp [List.map_map, Function.comp, setTotal, totalRow0, fillRow, fillCell]

/-- C1: constructing a session with an API key the remote reports as
unauthorized (HTTP 401) always raises the authentication error, and on
a successful handshake the session's username and hash are exactly the
values returned by the remote connect call (and the API key is the
caller's). -/
theorem init_unauthorized_or_handshake (u f l e k : String) (resp : ConnectResp) :
    (resp.status = 401 →
      groceryListInit u f l e k resp
        = .error (.authenticationError "Not authorized, please check API Key"))
    ∧ (resp.status ≠ 401 →
      groceryListInit u f l e k resp
        = .ok { username := resp.username, hash := resp.hash, API_Key := k }) := by
  constructor <;> intro h <;> simp [groceryListInit, h]

/-- Witness for C1: the 401 case errors and a 200 handshake copies the
remote-returned username and hash. -/
theorem init_unauthorized_or_handshake_witness :
    groceryListInit "u" "f" "l" "e" "key" ⟨401, "ru", "rh"⟩
      = .error (.authenticationError "Not authorized, please check API Key")
    ∧ groceryListInit "u" "f" "l" "e" "key" ⟨200, "ru", "rh"⟩
      = .ok { username := "ru", hash := "rh", API_Key := "key" } :=
  ⟨(init_unauthorized_or_handshake "u" "f" "l" "e" "key" ⟨401, "ru", "rh"⟩).1 rfl,
   (init_unauthorized_or_handshake "u" "f" "l" "e" "key" ⟨200, "ru", "rh"⟩).2 (by decide)⟩

/-- C2: whenever at least one `deleteItem` argument is not an integer
(in Python's `isinstance` sense), the call fails with the validation
error and issues zero network requests, so the remote list is never
touched. -/
theorem deleteItem_validates_before_network (s : Session) (args : List PyVal)
    (slResp : SLResponse) (h : ∃ v ∈ args, v.isInt = false) :
    deleteItemM s args slResp
      = (([], .error (.validationError "Item IDs must all be integers")), s) := by
  have hall : args.all PyVal.isInt = false := by
    rw [List.all_eq_false]
    obtain ⟨v, hv, hvi⟩ := h
    exact ⟨v, hv, by simp [hvi]⟩
  simp [deleteItemM, hall]

/-- Witness for C2: a string argument makes `deleteItem` fail with no
request issued. -/
theorem deleteItem_validates_before_network_witness :
    deleteItemM ⟨"u", "h", "k"⟩ [PyVal.pstr "oops"] ⟨[], 0⟩
      = (([], .error (.validationError "Item IDs must all be integers")),
         ⟨"u", "h", "k"⟩) :=
  deleteItem_validates_before_network ⟨"u", "h", "k"⟩ [PyVal.pstr "oops"] ⟨[], 0⟩
    ⟨PyVal.pstr "oops", by decide, rfl⟩

/-- C4: `addAllIngredients` issues exactly one add-item POST per
ingredient of the widget response, in lookup order, and its whole
behaviour (requests and result) is independent of the HTTP statuses of
the individual add calls, so one add call failing does not prevent the
remaining ones from being issued. -/
theorem addAllIngredients_one_post_per_ingredient (s : Session) (rid : ℤ)
    (w : WidgetResp) (f g : ℕ → ℕ) (sl : SLResponse) :
    ((addAllIngredientsM s rid w f sl).1.1.filter Request.isPost
       = w.ingredients.map (fun ing =>
           Request.post (addItemEndpoint s)
             { value := ing.amount.metric.value, unit := ing.amount.metric.unit,
               name := ing.name, parse := true }))
    ∧ addAllIngredientsM s rid w f sl = addAllIngredientsM s rid w g sl := by
  refine ⟨?_, rfl⟩
  simp [addAllIngredientsM, List.filter_append, List.filter_map,
    Function.comp_def, Request.isPost, List.filter_true]

/-- C7: none of the six public operations changes the session's
username, hash or API key. -/
theorem session_fields_unchanged (s : Session) (query : String)
    (ingreds : List String) (sresp : SearchResp) (rid : ℤ) (w : WidgetResp)
    (addStatus : ℕ → ℕ) (sl : SLResponse) (ingred unit : String) (amount : ℚ)
    (ids : List PyVal) :
    (searchRecipeM s query ingreds sresp).2 = s
    ∧ (getIngredientsM s rid w).2 = s
    ∧ (addIngredientM s ingred amount unit sl).2 = s
    ∧ (addAllIngredientsM s rid w addStatus sl).2 = s
    ∧ (getShoppingListM s sl).2 = s
    ∧ (deleteItemM s ids sl).2 = s :=
  ⟨rfl, rfl, rfl, rfl, rfl, rfl⟩

/-- C10: a Python bool passes `deleteItem`'s all-integers check
(`bool` is a subclass of `int`), so `deleteItem(True)` issues a delete
call whose URL carries `True` instead of raising the validation
error. -/
theorem deleteItem_accepts_bool (s : Session) (slResp : SLResponse) :
    deleteItemM s [PyVal.pbool true] slResp
      = (([Request.delete (deleteItemEndpoint s (PyVal.pbool true)),
           Request.get (shoppingListEndpoint s)],
          .ok (getShoppingListRows slResp)), s)
    ∧ PyVal.pyStr (PyVal.pbool true) = "True" :=
  ⟨rfl, rfl⟩

/-- C5: when the remote honours the `number=5` cap carried by the
request (the response has at most 5 results), `searchRecipe` returns at
most 5 rows, and row k is exactly result k, with Price Per Serving the
remote cents value divided by 100 and rounded to 2 decimal places. -/
theorem searchRecipe_cap_and_price (s : Session) (query : String)
    (ingreds : List String) (resp : SearchResp)
    (h : resp.results.length ≤ 5) :
    ((searchRecipeM s query ingreds resp).1.2).length ≤ 5
    ∧ ∀ k : ℕ, ((searchRecipeM s query ingreds resp).1.2)[k]?
        = resp.results[k]?.map (fun r =>
            { recipe := r.title, servings := r.servings,
              pricePerServing := round2 (r.pricePerServing / 100),
              recipeID := r.id }) := by
  constructor
  · simpa [searchRecipeM, searchRecipeRows] using h
  · intro k
    simp [searchRecipeM, searchRecipeRows, List.getElem?_map]

/-- Witness for C5: a one-result response yields at most 5 rows. -/
theorem searchRecipe_cap_and_price_witness :
    ((searchRecipeM ⟨"u", "h", "k"⟩ "soup" ["chicken"]
        ⟨[⟨"Soup", 4, 277, 715⟩]⟩).1.2).length ≤ 5 :=
  (searchRecipe_cap_and_price ⟨"u", "h", "k"⟩ "soup" ["chicken"]
    ⟨[⟨"Soup", 4, 277, 715⟩]⟩ (by decide)).1

/-- C6: `getIngredients` returns one row per ingredient in exactly the
remote order (row k is ingredient k for every index, which also pins
the length), with Amount and Unit taken from the metric branch of the
ingredient's amount record only. -/
theorem getIngredients_order_metric (resp : WidgetResp) :
    (getIngredientsRows resp).length = resp.ingredients.length
    ∧ ∀ k : ℕ, (getIngredientsRows resp)[k]?
        = resp.ingredients[k]?.map (fun i =>
            { ingredient := i.name, amount := i.amount.metric.value,
              unit := i.amount.metric.unit }) := by
  constructor
  · simp [getIngredientsRows]
  · intro k
    simp [getIngredientsRows, List.getElem?_map]

/-- C8: with one or more ingredient filters, the `includeIngredients`
query parameter of the search request is the `str` form of the whole
argument tuple, parentheses and quotes included, and for the example
filters it differs from the comma-joined ingredient names. -/
theorem searchRecipe_includeIngredients_tuple (k q : String)
    (l : List String) (h : l ≠ []) :
    searchEndpoint k q l
      = "https://api.spoonacular.com/recipes/complexSearch?apiKey=" ++ k
          ++ "&query=" ++ q
          ++ "&includeIngredients=" ++ pyTupleRepr l
          ++ "&addRecipeInformation=true&sort=popularity&number=5"
    ∧ pyTupleRepr ["chicken", "carrot"]
        = "(" ++ pyStrRepr "chicken" ++ ", " ++ pyStrRepr "carrot" ++ ")"
    ∧ pyTupleRepr ["chicken", "carrot"]
        ≠ String.intercalate "," ["chicken", "carrot"] :=
  ⟨rfl, rfl, by decide⟩

/-- Witness for C8: the endpoint built for the two example filters. -/
theorem searchRecipe_includeIngredients_tuple_witness :
    searchEndpoint "key" "soup" ["chicken", "carrot"]
      = "https://api.spoonacular.com/recipes/complexSearch?apiKey=" ++ "key"
          ++ "&query=" ++ "soup"
          ++ "&includeIngredients=" ++ pyTupleRepr ["chicken", "carrot"]
          ++ "&addRecipeInformation=true&sort=popularity&number=5" :=
  (searchRecipe_includeIngredients_tuple "key" "soup" ["chicken", "carrot"]
    (by decide)).1

/-- C3 (amended): provided no remote item is itself named "Total cost"
(such an item's cost cell is overwritten with the aggregate total, see
the C9 theorem), a response with N items yields N+1 rows: row k is
item k with its cost in cents divided by 100 and rounded to 2 places
and its Item ID coerced to an integer, and the last row is labelled
"Total cost" with blank Amount, Unit and Item ID and the aggregate
cost divided by 100 and rounded to 2 places. -/
theorem getShoppingList_shape (resp : SLResponse)
    (hno : ∀ it ∈ slItems resp, it.name ≠ "Total cost") :
    (getShoppingListRows resp).length = (slItems resp).length + 1
    ∧ (getShoppingListRows resp)[(slItems resp).length]?
        = some { item := Cell.s "Total cost", amount := Cell.s "",
                 unit := Cell.s "", cost := Cell.q (round2 (resp.cost / 100)),
                 itemID := Cell.s "" }
    ∧ ∀ k : ℕ, k < (slItems resp).length →
        (getShoppingListRows resp)[k]?
          = ((slItems resp)[k]?).map (fun it =>
              { item := Cell.s it.name,
                amount := Cell.q it.measures.metric.amount,
                unit := Cell.s it.measures.metric.unit,
                cost := Cell.q (round2 (it.cost / 100)),
                itemID := Cell.i (ratTrunc it.id) }) := by
  refine ⟨?_, ?_, ?_⟩
  · rw [getShoppingListRows_eq]
    simp
  · rw [getShoppingListRows_eq,
      List.getElem?_append_right (by simp)]
    simp
  · intro j hj
    have hname : (slItems resp)[j].name ≠ "Total cost" :=
      hno _ (List.getElem_mem hj)
    rw [getShoppingListRows_eq,
      List.getElem?_append_left (by simpa using hj),
      List.getElem?_map, List.getElem?_eq_getElem hj]
    simp [itemRow0, setTotal, fillRow, fillCell, intRow, toIntCell, hname]

/-- Witness for C3: a one-item list yields two rows. -/
theorem getShoppingList_shape_witness :
    (getShoppingListRows
        ⟨[⟨[⟨"milk", ⟨⟨250, "ml"⟩, ⟨1, "cup"⟩⟩, 199, 42⟩]⟩], 199⟩).length = 2 :=
  (getShoppingList_shape
    ⟨[⟨[⟨"milk", ⟨⟨250, "ml"⟩, ⟨1, "cup"⟩⟩, 199, 42⟩]⟩], 199⟩ (by decide)).1

/-- Counterexample to C3 as stated: with a remote item literally named
"Total cost" (cost 123 cents) and aggregate cost 500 cents, the item
row displays cost 5 — the aggregate — while its own cents value
divided by 100 and rounded is 1.23, so not every displayed per-item
cost equals that item's remote cents value divided by 100 and
rounded. -/
theorem getShoppingList_cost_cex :
    ((getShoppingListRows
        ⟨[⟨[⟨"Total cost", ⟨⟨1, "g"⟩, ⟨1, "g"⟩⟩, 123, 7⟩]⟩], 500⟩).map SRow.cost)
      = [Cell.q 5, Cell.q 5]
    ∧ round2 ((123 : ℚ) / 100) ≠ (5 : ℚ) := by
  have h5 : round2 ((500 : ℚ) / 100) = 5 := by
    have h := round2_intCast_div_100 500
    push_cast at h
    rw [h]
    norm_num
  have h123 : round2 ((123 : ℚ) / 100) = 123 / 100 := by
    have h := round2_intCast_div_100 123
    push_cast at h
    exact h
  constructor
  · rw [getShoppingListRows_eq]
    simp [slItems, itemRow0, setTotal, fillRow, fillCell, intRow, toIntCell, h5]
  · rw [h123]
    norm_num

/-- C9: if the remote list contains an item whose name is literally
"Total cost", `getShoppingList` overwrites that item row's cost cell
with the aggregate total as well, because the masked assignment applies
to every row whose Item equals "Total cost". -/
theorem getShoppingList_overwrites_total_named (resp : SLResponse) (j : ℕ)
    (it : SLItem) (hj : (slItems resp)[j]? = some it)
    (hname : it.name = "Total cost") :
    ((getShoppingListRows resp)[j]?).map SRow.cost
      = some (Cell.q (round2 (resp.cost / 100))) := by
  have hjlen : j < (slItems resp).length := (List.getElem?_eq_some.mp hj).choose
  rw [getShoppingListRows_eq,
    List.getElem?_append_left (by simpa using hjlen),
    List.getElem?_map, hj]
  simp [itemRow0, setTotal, fillRow, fillCell, intRow, toIntCell, hname]

/-- Witness for C9: a concrete list whose only item is named
"Total cost"; its row's cost cell carries the aggregate total. -/
theorem getShoppingList_overwrites_total_named_witness :
    (((getShoppingListRows
        ⟨[⟨[⟨"Total cost", ⟨⟨2, "kg"⟩, ⟨4, "lb"⟩⟩, 123, 7⟩]⟩], 500⟩))[0]?).map SRow.cost
      = some (Cell.q (round2 ((500 : ℚ) / 100))) :=
  getShoppingList_overwrites_total_named
    ⟨[⟨[⟨"Total cost", ⟨⟨2, "kg"⟩, ⟨4, "lb"⟩⟩, 123, 7⟩]⟩], 500⟩ 0
    ⟨"Total cost", ⟨⟨2, "kg"⟩, ⟨4, "lb"⟩⟩, 123, 7⟩ rfl rfl

end SpoonacularApi
